import Mathlib

/-!
Verification of the Solana merkle-distributor client
(src/packages/distributor/solana/client.ts).

The three instruction preparers of `SolanaDistributorClient` are embedded
shallowly.  Results of the external collaborators (account fetches, the
associated-token-account batch helper, the base instruction helper, the
wrapped-account helper) are injected through an `Env` record; the preparers
return the ordered trace of network reads they perform together with either
an error or the composed instruction list, exactly following the control
flow of the TypeScript source.  BN timestamps are embedded as `Int`
(arbitrary-precision signed, as BN is) and token amounts as `Nat` (u64
range, only compared against zero and passed through).
-/

/-- A Solana public key, abstracted to its identity. -/
structure Pubkey where
  id : Nat
deriving DecidableEq, Repr

/-- SystemProgram.programId (external fixed address). -/
def systemProgramId : Pubkey := ⟨1⟩

/-- ASSOCIATED_TOKEN_PROGRAM_ID (external fixed address). -/
def associatedTokenProgramId : Pubkey := ⟨2⟩

/-- NATIVE_MINT (external fixed address, wrapped SOL). -/
def nativeMint : Pubkey := ⟨3⟩

/-- Modelled from the spec: the program-derived-address primitive of
utils.ts is not under src/; per section 4.1 it is a deterministic,
stateless mapping of seeds (a domain-separated hash).  Any injective-ish
pure function of the seeds is a faithful model of that contract. -/
def pdaHash (seeds : List Nat) : Pubkey :=
  ⟨seeds.foldl (fun a s => a * 1000003 + s + 1) 7⟩

/-- Modelled from the spec: getDistributorPda (programId, mint, version). -/
def getDistributorPda (programId mint : Pubkey) (version : Nat) : Pubkey :=
  pdaHash [0, programId.id, mint.id, version]

/-- Modelled from the spec: getClaimantStatusPda (programId, distributor, claimant). -/
def getClaimantStatusPda (programId distributor claimant : Pubkey) : Pubkey :=
  pdaHash [1, programId.id, distributor.id, claimant.id]

/-- Modelled from the spec: getEventAuthorityPda (programId). -/
def getEventAuthorityPda (programId : Pubkey) : Pubkey :=
  pdaHash [2, programId.id]

/-- Modelled from the spec: the ata helper derives the associated token
account of an owner for a mint under a token program; pure derivation,
no network read. -/
def ata (mint owner tokenProgramId : Pubkey) : Pubkey :=
  pdaHash [3, mint.id, owner.id, tokenProgramId.id]

/-- Decoded MerkleDistributor account state (fields the client reads). -/
structure MerkleDistributor where
  mint : Pubkey
  tokenVault : Pubkey
  clawbackReceiver : Pubkey
  startTs : Int
  unlockPeriod : Int
deriving DecidableEq, Repr

/-- Decoded ClaimStatus account state; only its presence is inspected by
the client, the amounts are carried for completeness. -/
structure ClaimStatus where
  lockedAmount : Nat
  unlockedAmount : Nat
deriving DecidableEq, Repr

/-- IClaimData: input of the claim operation. -/
structure IClaimData where
  id : Pubkey
  amountLocked : Nat
  amountUnlocked : Nat
  proof : List (List Nat)
deriving DecidableEq, Repr

/-- ICreateDistributorData: input of the create operation. -/
structure ICreateDistributorData where
  mint : Pubkey
  version : Nat
  root : List Nat
  maxTotalClaim : Nat
  maxNumNodes : Nat
  unlockPeriod : Int
  startVestingTs : Int
  endVestingTs : Int
  clawbackStartTs : Int
  claimsClosable : Bool
deriving DecidableEq, Repr

/-- IClawbackData: input of the clawback operation. -/
structure IClawbackData where
  id : Pubkey
deriving DecidableEq, Repr

/-- NewClaimArgs of the generated newClaim instruction. -/
structure NewClaimArgs where
  amountLocked : Nat
  amountUnlocked : Nat
  proof : List (List Nat)
deriving DecidableEq, Repr

/-- Accounts shared by the newClaim and claimLocked instructions. -/
structure ClaimAccounts where
  distributor : Pubkey
  claimStatus : Pubkey
  fromAcct : Pubkey
  toAcct : Pubkey
  claimant : Pubkey
  mint : Pubkey
  tokenProgram : Pubkey
  systemProgram : Pubkey
  eventAuthority : Pubkey
  program : Pubkey
deriving DecidableEq, Repr

/-- NewDistributorArgs of the generated newDistributor instruction. -/
structure NewDistributorArgs where
  version : Nat
  root : List Nat
  maxTotalClaim : Nat
  maxNumNodes : Nat
  unlockPeriod : Int
  startVestingTs : Int
  endVestingTs : Int
  clawbackStartTs : Int
  claimsClosable : Bool
deriving DecidableEq, Repr

/-- Accounts of the generated newDistributor instruction. -/
structure NewDistributorAccounts where
  distributor : Pubkey
  clawbackReceiver : Pubkey
  mint : Pubkey
  tokenVault : Pubkey
  admin : Pubkey
  systemProgram : Pubkey
  associatedTokenProgram : Pubkey
  tokenProgram : Pubkey
deriving DecidableEq, Repr

/-- Accounts of the generated clawback instruction. -/
structure ClawbackAccounts where
  distributor : Pubkey
  fromAcct : Pubkey
  toAcct : Pubkey
  admin : Pubkey
  mint : Pubkey
  systemProgram : Pubkey
  tokenProgram : Pubkey
deriving DecidableEq, Repr

/-- An opaque instruction produced by an external collaborator
(prepareBaseInstructions, checkOrCreateAtaBatch, prepareWrappedAccount);
the client treats these as black-box values it only appends. -/
structure SetupIx where
  tag : Nat
deriving DecidableEq, Repr

/-- A transaction instruction, tagged by which builder produced it. -/
inductive Ix where
  | base (i : SetupIx)
  | ataSetup (i : SetupIx)
  | wrap (i : SetupIx)
  | newClaim (args : NewClaimArgs) (accounts : ClaimAccounts) (programId : Pubkey)
  | claimLocked (accounts : ClaimAccounts) (programId : Pubkey)
  | newDistributor (args : NewDistributorArgs) (accounts : NewDistributorAccounts) (programId : Pubkey)
  | transferChecked (source mint dest owner : Pubkey) (amount : Nat) (decimals : Nat) (tokenProgram : Pubkey)
  | clawback (accounts : ClawbackAccounts) (programId : Pubkey)
deriving DecidableEq, Repr

/-- The errors the preparers throw synchronously. -/
inductive PrepErr where
  | missingInvoker
  | accountInfo
  | vestingWindow
deriving DecidableEq, Repr

/-- A network read performed by a preparer, in order. -/
inductive NetEvent where
  | fetchAccount (addr : Pubkey)
  | mintFetch (mint : Pubkey)
  | ataCheck
  | wrapPrepare
deriving DecidableEq, Repr

/-- Injected results of the external collaborators plus the clock value the
client reads via Date.now, and the construction-time fields of the client
(programId). -/
structure Env where
  invokerKey : Option Pubkey
  fetchDistributor : Option MerkleDistributor
  fetchClaimStatus : Option ClaimStatus
  tokenProgramId : Pubkey
  mintDecimals : Nat
  isNative : Bool
  baseIxs : List SetupIx
  ataIxs : List SetupIx
  wrapIxs : List SetupIx
  now : Int
  programId : Pubkey
deriving DecidableEq, Repr

/-- The accounts record built at lines 233-244 of client.ts, shared by the
newClaim and claimLocked instructions. -/
def claimAccounts (env : Env) (data : IClaimData) (invoker : Pubkey)
    (d : MerkleDistributor) : ClaimAccounts :=
  { distributor := data.id
    claimStatus := getClaimantStatusPda env.programId data.id invoker
    fromAcct := d.tokenVault
    toAcct := ata d.mint invoker env.tokenProgramId
    claimant := invoker
    mint := d.mint
    tokenProgram := env.tokenProgramId
    systemProgram := systemProgramId
    eventAuthority := getEventAuthorityPda env.programId
    program := env.programId }

/-- The opaque instructions that precede any claim instruction: the base
instructions followed by the associated-token-account setup batch. -/
def setupIxs (env : Env) : List Ix :=
  env.baseIxs.map Ix.base ++ env.ataIxs.map Ix.ataSetup

/-- Embedding of SolanaDistributorClient.prepareClaimInstructions
(client.ts lines 198-261): invoker check, distributor fetch (error when
absent), mint fetch, base instructions, ATA batch, claim-status fetch,
then a newClaim instruction when no ClaimStatus exists and a claimLocked
instruction when a ClaimStatus exists or the locked amount is positive and
the unlock period has elapsed since startTs. -/
def prepareClaimInstructions (env : Env) (data : IClaimData) :
    List NetEvent × Except PrepErr (List Ix) :=
  match env.invokerKey with
  | none => ([], Except.error PrepErr.missingInvoker)
  | some invoker =>
    match env.fetchDistributor with
    | none => ([NetEvent.fetchAccount data.id], Except.error PrepErr.accountInfo)
    | some d =>
      let claimStatusKey := getClaimantStatusPda env.programId data.id invoker
      let trace := [NetEvent.fetchAccount data.id, NetEvent.mintFetch d.mint,
                    NetEvent.ataCheck, NetEvent.fetchAccount claimStatusKey]
      let accounts := claimAccounts env data invoker d
      let newClaimPart :=
        match env.fetchClaimStatus with
        | none => [Ix.newClaim ⟨data.amountLocked, data.amountUnlocked, data.proof⟩
                     accounts env.programId]
        | some _ => []
      let lockedPart :=
        if env.fetchClaimStatus.isSome ∨
            (0 < data.amountLocked ∧ d.unlockPeriod ≤ env.now - d.startTs) then
          [Ix.claimLocked accounts env.programId]
        else []
      (trace, Except.ok (setupIxs env ++ newClaimPart ++ lockedPart))

/-- Embedding of SolanaDistributorClient.prepareCreateInstructions
(client.ts lines 115-178): invoker check, mint selection (native mint when
isNative), mint fetch, PDA and vault derivation, optional wrapped-account
instructions, then the vesting-window validation (zero timestamps replaced
by the current time), then the newDistributor and transferChecked
instructions. -/
def prepareCreateInstructions (env : Env) (data : ICreateDistributorData) :
    List NetEvent × Except PrepErr (Pubkey × List Ix) :=
  match env.invokerKey with
  | none => ([], Except.error PrepErr.missingInvoker)
  | some invoker =>
    let mint := if env.isNative then nativeMint else data.mint
    let distributorKey := getDistributorPda env.programId mint data.version
    let tokenVault := ata mint distributorKey env.tokenProgramId
    let senderTokens := ata mint invoker env.tokenProgramId
    let args : NewDistributorArgs :=
      { version := data.version
        root := data.root
        maxTotalClaim := data.maxTotalClaim
        maxNumNodes := data.maxNumNodes
        unlockPeriod := data.unlockPeriod
        startVestingTs := data.startVestingTs
        endVestingTs := data.endVestingTs
        clawbackStartTs := data.clawbackStartTs
        claimsClosable := data.claimsClosable }
    let accounts : NewDistributorAccounts :=
      { distributor := distributorKey
        clawbackReceiver := senderTokens
        mint := mint
        tokenVault := tokenVault
        admin := invoker
        systemProgram := systemProgramId
        associatedTokenProgram := associatedTokenProgramId
        tokenProgram := env.tokenProgramId }
    let trace := [NetEvent.mintFetch mint] ++
      (if env.isNative then [NetEvent.wrapPrepare] else [])
    let wrapped := if env.isNative then env.wrapIxs.map Ix.wrap else []
    let endTs := if args.endVestingTs = 0 then env.now else args.endVestingTs
    let startTs := if args.startVestingTs = 0 then env.now else args.startVestingTs
    if startTs < endTs ∧ endTs - startTs < args.unlockPeriod then
      (trace, Except.error PrepErr.vestingWindow)
    else
      (trace, Except.ok (distributorKey,
        env.baseIxs.map Ix.base ++ wrapped ++
        [Ix.newDistributor args accounts env.programId,
         Ix.transferChecked senderTokens mint tokenVault invoker
           data.maxTotalClaim env.mintDecimals env.tokenProgramId]))

/-- Embedding of SolanaDistributorClient.prepareClawbackInstructions
(client.ts lines 281-320): invoker check, distributor fetch (error when
absent), mint fetch, base instructions, ATA batch, then a single clawback
instruction returning vault funds to the stored clawback receiver. -/
def prepareClawbackInstructions (env : Env) (data : IClawbackData) :
    List NetEvent × Except PrepErr (List Ix) :=
  match env.invokerKey with
  | none => ([], Except.error PrepErr.missingInvoker)
  | some invoker =>
    match env.fetchDistributor with
    | none => ([NetEvent.fetchAccount data.id], Except.error PrepErr.accountInfo)
    | some d =>
      let trace := [NetEvent.fetchAccount data.id, NetEvent.mintFetch d.mint,
                    NetEvent.ataCheck]
      let accounts : ClawbackAccounts :=
        { distributor := data.id
          fromAcct := d.tokenVault
          toAcct := d.clawbackReceiver
          admin := invoker
          mint := d.mint
          systemProgram := systemProgramId
          tokenProgram := env.tokenProgramId }
      (trace, Except.ok (setupIxs env ++ [Ix.clawback accounts env.programId]))

/-- Recognizer for the newClaim instruction. -/
def isNewClaimIx : Ix → Bool
  | Ix.newClaim _ _ _ => true
  | _ => false

/-- Recognizer for the claimLocked instruction. -/
def isClaimLockedIx : Ix → Bool
  | Ix.claimLocked _ _ => true
  | _ => false

/-- A claim instruction is a newClaim or a claimLocked instruction. -/
def isClaimIx (ix : Ix) : Bool := isNewClaimIx ix || isClaimLockedIx ix

/-- Instructions contributed by external setup collaborators. -/
def isSetupIx : Ix → Bool
  | Ix.base _ => true
  | Ix.ataSetup _ => true
  | _ => false

/-- Extract the instruction list of a successful preparation. -/
def okList : Except PrepErr (List Ix) → List Ix
  | Except.ok l => l
  | Except.error _ => []

/-- A distributor state used by the concrete counterexamples: the scenario
of spec section 8 (startTs 1000, unlockPeriod 500). -/
def exDistributor : MerkleDistributor :=
  { mint := ⟨21⟩, tokenVault := ⟨22⟩, clawbackReceiver := ⟨23⟩,
    startTs := 1000, unlockPeriod := 500 }

/-- A claim request with a positive locked amount. -/
def exClaimData : IClaimData :=
  { id := ⟨51⟩, amountLocked := 100, amountUnlocked := 40, proof := [[1, 2], [3]] }

/-- An environment with invoker present, distributor found, no prior
ClaimStatus, one base instruction, one ATA setup instruction, clock 1200. -/
def exEnv : Env :=
  { invokerKey := some ⟨11⟩, fetchDistributor := some exDistributor,
    fetchClaimStatus := none, tokenProgramId := ⟨31⟩, mintDecimals := 6,
    isNative := false, baseIxs := [⟨101⟩], ataIxs := [⟨102⟩],
    wrapIxs := [⟨103⟩], now := 1200, programId := ⟨41⟩ }

/-- Scenario 7 of the spec, first half: no prior ClaimStatus, clock 1400,
only 400 of the 500 second unlock period elapsed: a newClaim instruction
and no claimLocked instruction. -/
theorem scenario7_before_unlock :
    (okList (prepareClaimInstructions { exEnv with now := 1400 } exClaimData).2).countP
        isNewClaimIx = 1 ∧
    (okList (prepareClaimInstructions { exEnv with now := 1400 } exClaimData).2).countP
        isClaimLockedIx = 0 := by
  decide

/-- Scenario 7 of the spec, second half: at clock 1600 the unlock period
has elapsed: both a newClaim and a claimLocked instruction. -/
theorem scenario7_after_unlock :
    (okList (prepareClaimInstructions { exEnv with now := 1600 } exClaimData).2).countP
        isNewClaimIx = 1 ∧
    (okList (prepareClaimInstructions { exEnv with now := 1600 } exClaimData).2).countP
        isClaimLockedIx = 1 := by
  decide

/-- Scenario 8 of the spec: an existing ClaimStatus at clock 1200, before
the unlock window: no newClaim and one claimLocked instruction. -/
theorem scenario8_status_present :
    (okList (prepareClaimInstructions { exEnv with fetchClaimStatus := some ⟨0, 0⟩ }
        exClaimData).2).countP isNewClaimIx = 0 ∧
    (okList (prepareClaimInstructions { exEnv with fetchClaimStatus := some ⟨0, 0⟩ }
        exClaimData).2).countP isClaimLockedIx = 1 := by
  decide

theorem setupIxs_countP_newClaim (env : Env) :
    (setupIxs env).countP isNewClaimIx = 0 := by
  simp [setupIxs, List.countP_append, List.countP_map, Function.comp, isNewClaimIx]

theorem setupIxs_countP_claimLocked (env : Env) :
    (setupIxs env).countP isClaimLockedIx = 0 := by
  simp [setupIxs, List.countP_append, List.countP_map, Function.comp, isClaimLockedIx]

theorem setupIxs_countP_claim (env : Env) :
    (setupIxs env).countP isClaimIx = 0 := by
  simp [setupIxs, List.countP_append, List.countP_map, Function.comp, isClaimIx,
    isNewClaimIx, isClaimLockedIx]

/-- C2: whenever a ClaimStatus record is present, prepareClaimInstructions
appends a claimLocked instruction, for every time value and every locked
amount. -/
theorem C2_claim_status_forces_claim_locked (env : Env) (data : IClaimData)
    (k : Pubkey) (d : MerkleDistributor) (c : ClaimStatus)
    (hk : env.invokerKey = some k) (hd : env.fetchDistributor = some d)
    (hc : env.fetchClaimStatus = some c) :
    ∃ l, (prepareClaimInstructions env data).2 = Except.ok l ∧
      l.countP isClaimLockedIx = 1 := by
  simp only [prepareClaimInstructions, hk, hd, hc, Option.isSome_some, true_or, if_true]
  exact ⟨_, rfl, by
    simp [List.countP_append, setupIxs_countP_claimLocked, List.countP_cons, isClaimLockedIx]⟩

/-- Witness for C2: concrete claimant with an existing ClaimStatus at time
1200, before the unlock window, still receives a claimLocked instruction. -/
theorem C2_claim_status_forces_claim_locked_witness :
    ∃ l, (prepareClaimInstructions { exEnv with fetchClaimStatus := some ⟨0, 0⟩ }
        exClaimData).2 = Except.ok l ∧ l.countP isClaimLockedIx = 1 :=
  C2_claim_status_forces_claim_locked _ exClaimData ⟨11⟩ exDistributor ⟨0, 0⟩ rfl rfl rfl

/-- C1 counterexample: with a ClaimStatus present and the unlock window not
yet elapsed (now 1200, startTs 1000, unlockPeriod 500), the composed list
contains one claim instruction, not zero. -/
theorem C1_counterexample :
    ({ exEnv with fetchClaimStatus := some ⟨0, 0⟩ } : Env).fetchClaimStatus.isSome = true ∧
    ({ exEnv with fetchClaimStatus := some ⟨0, 0⟩ } : Env).now - exDistributor.startTs <
      exDistributor.unlockPeriod ∧
    (okList (prepareClaimInstructions { exEnv with fetchClaimStatus := some ⟨0, 0⟩ }
        exClaimData).2).countP isClaimIx = 1 := by
  decide

/-- C1 amended: if a ClaimStatus is present and unlock is not yet due, the
composed list contains no newClaim instruction, but it is the setup
instructions followed by exactly one claimLocked instruction (the claimant
status path always appends claimLocked). -/
theorem C1_no_op_amended (env : Env) (data : IClaimData)
    (k : Pubkey) (d : MerkleDistributor) (c : ClaimStatus)
    (hk : env.invokerKey = some k) (hd : env.fetchDistributor = some d)
    (hc : env.fetchClaimStatus = some c)
    (ht : env.now - d.startTs < d.unlockPeriod) :
    (prepareClaimInstructions env data).2 =
      Except.ok (setupIxs env ++
        [Ix.claimLocked (claimAccounts env data k d) env.programId]) := by
  simp [prepareClaimInstructions, hk, hd, hc]

/-- Witness for the amended C1 at the concrete scenario of the spec. -/
theorem C1_no_op_amended_witness :
    (prepareClaimInstructions { exEnv with fetchClaimStatus := some ⟨0, 0⟩ }
        exClaimData).2 =
      Except.ok (setupIxs { exEnv with fetchClaimStatus := some ⟨0, 0⟩ } ++
        [Ix.claimLocked
          (claimAccounts { exEnv with fetchClaimStatus := some ⟨0, 0⟩ }
            exClaimData ⟨11⟩ exDistributor)
          ({ exEnv with fetchClaimStatus := some ⟨0, 0⟩ } : Env).programId]) :=
  C1_no_op_amended _ exClaimData ⟨11⟩ exDistributor ⟨0, 0⟩ rfl rfl rfl (by decide)

/-- C4 counterexample: with no prior ClaimStatus but a nonempty base
instruction list, the first element of the composed list is a base setup
instruction, not the newClaim instruction. -/
theorem C4_counterexample :
    exEnv.fetchClaimStatus = none ∧
    (okList (prepareClaimInstructions exEnv exClaimData).2).head?.map isNewClaimIx =
      some false := by
  decide

/-- C4 amended: if no ClaimStatus exists, the composed list is the setup
instructions (base and ATA creation) followed immediately by the newClaim
instruction; it is the first element whenever the setup lists are empty,
and it precedes any claimLocked instruction. -/
theorem C4_first_claim_after_setup (env : Env) (data : IClaimData)
    (k : Pubkey) (d : MerkleDistributor)
    (hk : env.invokerKey = some k) (hd : env.fetchDistributor = some d)
    (hc : env.fetchClaimStatus = none) :
    ∃ rest, (prepareClaimInstructions env data).2 =
      Except.ok (setupIxs env ++
        Ix.newClaim ⟨data.amountLocked, data.amountUnlocked, data.proof⟩
          (claimAccounts env data k d) env.programId :: rest) := by
  simp only [prepareClaimInstructions, hk, hd, hc]
  exact ⟨_, by rw [List.append_assoc]; rfl⟩

/-- Witness for the amended C4 at the concrete scenario of the spec. -/
theorem C4_first_claim_after_setup_witness :
    ∃ rest, (prepareClaimInstructions exEnv exClaimData).2 =
      Except.ok (setupIxs exEnv ++
        Ix.newClaim ⟨exClaimData.amountLocked, exClaimData.amountUnlocked, exClaimData.proof⟩
          (claimAccounts exEnv exClaimData ⟨11⟩ exDistributor) exEnv.programId :: rest) :=
  C4_first_claim_after_setup exEnv exClaimData ⟨11⟩ exDistributor rfl rfl rfl

/-- C5: the claim composition always returns normally (once invoker and
distributor are available) with the setup instructions followed by a
newClaim segment and then a claimLocked segment, each of length at most
one; in particular at most one instruction of each kind is emitted, every
newClaim precedes every claimLocked, and a list with no claim instruction
is an ordinary success. -/
theorem C5_multiplicity_and_order (env : Env) (data : IClaimData)
    (k : Pubkey) (d : MerkleDistributor)
    (hk : env.invokerKey = some k) (hd : env.fetchDistributor = some d) :
    ∃ nc lk, (prepareClaimInstructions env data).2 =
        Except.ok (setupIxs env ++ nc ++ lk) ∧
      nc.length ≤ 1 ∧ (∀ ix ∈ nc, isNewClaimIx ix = true) ∧
      lk.length ≤ 1 ∧ (∀ ix ∈ lk, isClaimLockedIx ix = true) ∧
      (setupIxs env ++ nc ++ lk).countP isNewClaimIx ≤ 1 ∧
      (setupIxs env ++ nc ++ lk).countP isClaimLockedIx ≤ 1 := by
  simp only [prepareClaimInstructions, hk, hd]
  cases hc : env.fetchClaimStatus with
  | none =>
    by_cases hl : 0 < data.amountLocked ∧ d.unlockPeriod ≤ env.now - d.startTs
    · rw [if_pos (Or.inr hl)]
      refine ⟨_, _, rfl, ?_, ?_, ?_, ?_, ?_, ?_⟩ <;>
        simp [isNewClaimIx, isClaimLockedIx, List.countP_append,
          setupIxs_countP_newClaim, setupIxs_countP_claimLocked, List.countP_cons]
    · rw [if_neg (by simp [hl])]
      refine ⟨_, _, rfl, ?_, ?_, ?_, ?_, ?_, ?_⟩ <;>
        simp [isNewClaimIx, isClaimLockedIx, List.countP_append,
          setupIxs_countP_newClaim, setupIxs_countP_claimLocked, List.countP_cons]
  | some c =>
    rw [if_pos (Or.inl (by simp))]
    refine ⟨_, _, rfl, ?_, ?_, ?_, ?_, ?_, ?_⟩ <;>
      simp [isNewClaimIx, isClaimLockedIx, List.countP_append,
        setupIxs_countP_newClaim, setupIxs_countP_claimLocked, List.countP_cons]

/-- Witness for C5 at a concrete input. -/
theorem C5_multiplicity_and_order_witness :
    ∃ nc lk, (prepareClaimInstructions exEnv exClaimData).2 =
        Except.ok (setupIxs exEnv ++ nc ++ lk) ∧
      nc.length ≤ 1 ∧ (∀ ix ∈ nc, isNewClaimIx ix = true) ∧
      lk.length ≤ 1 ∧ (∀ ix ∈ lk, isClaimLockedIx ix = true) ∧
      (setupIxs exEnv ++ nc ++ lk).countP isNewClaimIx ≤ 1 ∧
      (setupIxs exEnv ++ nc ++ lk).countP isClaimLockedIx ≤ 1 :=
  C5_multiplicity_and_order exEnv exClaimData ⟨11⟩ exDistributor rfl rfl

/-- C6: with a zero locked amount and no prior ClaimStatus, the unlock-due
condition is false for every time value and no claimLocked instruction is
emitted. -/
theorem C6_zero_locked_no_claim_locked (env : Env) (data : IClaimData)
    (k : Pubkey) (d : MerkleDistributor)
    (hk : env.invokerKey = some k) (hd : env.fetchDistributor = some d)
    (hc : env.fetchClaimStatus = none) (ha : data.amountLocked = 0) :
    ∃ l, (prepareClaimInstructions env data).2 = Except.ok l ∧
      l.countP isClaimLockedIx = 0 := by
  simp only [prepareClaimInstructions, hk, hd, hc]
  rw [if_neg]
  · exact ⟨_, rfl, by
      simp [List.countP_append, setupIxs_countP_claimLocked, List.countP_cons,
        isClaimLockedIx]⟩
  · simp [ha]

/-- Witness for C6: zero locked amount, clock far past the unlock window. -/
theorem C6_zero_locked_no_claim_locked_witness :
    ∃ l, (prepareClaimInstructions { exEnv with now := 999999 }
        { exClaimData with amountLocked := 0 }).2 = Except.ok l ∧
      l.countP isClaimLockedIx = 0 :=
  C6_zero_locked_no_claim_locked _ _ ⟨11⟩ exDistributor rfl rfl rfl rfl

/-- C7: with a positive locked amount and the unlock period elapsed since
startTs, the claimLocked instruction is always emitted, with or without a
prior ClaimStatus. -/
theorem C7_unlock_due_emits_claim_locked (env : Env) (data : IClaimData)
    (k : Pubkey) (d : MerkleDistributor)
    (hk : env.invokerKey = some k) (hd : env.fetchDistributor = some d)
    (ha : 0 < data.amountLocked) (ht : d.unlockPeriod ≤ env.now - d.startTs) :
    ∃ l, (prepareClaimInstructions env data).2 = Except.ok l ∧
      l.countP isClaimLockedIx = 1 := by
  simp only [prepareClaimInstructions, hk, hd]
  rw [if_pos (Or.inr ⟨ha, ht⟩)]
  exact ⟨_, rfl, by
    cases env.fetchClaimStatus <;>
      simp [List.countP_append, setupIxs_countP_claimLocked, List.countP_cons,
        isClaimLockedIx, isNewClaimIx]⟩

/-- Witness for C7: no prior ClaimStatus, clock 1600, window 500 elapsed. -/
theorem C7_unlock_due_emits_claim_locked_witness :
    ∃ l, (prepareClaimInstructions { exEnv with now := 1600 } exClaimData).2 =
        Except.ok l ∧ l.countP isClaimLockedIx = 1 :=
  C7_unlock_due_emits_claim_locked _ exClaimData ⟨11⟩ exDistributor rfl rfl
    (by decide) (by decide)

/-- Creation parameters with a vesting window shorter than the unlock
period (1200 - 1000 = 200 < 500), used by the counterexamples. -/
def exCreateData : ICreateDistributorData :=
  { mint := ⟨61⟩, version := 1, root := [9], maxTotalClaim := 1000,
    maxNumNodes := 10, unlockPeriod := 500, startVestingTs := 1000,
    endVestingTs := 1200, clawbackStartTs := 2000, claimsClosable := false }

/-- C3: with an invoker available and endVestingTs above startVestingTs
above zero, creation fails with the vesting-window error exactly when the
vesting window is shorter than the unlock period, and returns the composed
list otherwise. -/
theorem C3_vesting_invariant (env : Env) (data : ICreateDistributorData)
    (k : Pubkey) (hk : env.invokerKey = some k)
    (hs : 0 < data.startVestingTs)
    (he : data.startVestingTs < data.endVestingTs) :
    ((prepareCreateInstructions env data).2 = Except.error PrepErr.vestingWindow ↔
      data.endVestingTs - data.startVestingTs < data.unlockPeriod) ∧
    (data.unlockPeriod ≤ data.endVestingTs - data.startVestingTs →
      ∃ p l, (prepareCreateInstructions env data).2 = Except.ok (p, l)) := by
  have hs0 : ¬ data.startVestingTs = 0 := by omega
  have he0 : ¬ data.endVestingTs = 0 := by omega
  simp only [prepareCreateInstructions, hk, hs0, he0, if_false]
  by_cases hlt : data.endVestingTs - data.startVestingTs < data.unlockPeriod
  · rw [if_pos ⟨he, hlt⟩]
    exact ⟨by simp [hlt], fun h => absurd hlt (by omega)⟩
  · rw [if_neg (fun h => hlt h.2)]
    exact ⟨by simp [hlt], fun _ => ⟨_, _, rfl⟩⟩

/-- Witness for C3: a window of 600 with unlock period 500 passes. -/
theorem C3_vesting_invariant_witness :
    ((prepareCreateInstructions exEnv
        { exCreateData with endVestingTs := 1600 }).2 =
          Except.error PrepErr.vestingWindow ↔
      (1600 : Int) - 1000 < 500) ∧
    ((500 : Int) ≤ 1600 - 1000 →
      ∃ p l, (prepareCreateInstructions exEnv
        { exCreateData with endVestingTs := 1600 }).2 = Except.ok (p, l)) :=
  C3_vesting_invariant exEnv _ ⟨11⟩ rfl (by decide) (by decide)

/-- C8 counterexample: with an invoker available and malformed vesting
parameters, prepareCreateInstructions raises the vesting-window error only
after a network read (the mint fetch) has been performed: the network
trace at the failure is nonempty. -/
theorem C8_counterexample :
    (prepareCreateInstructions exEnv exCreateData).2 =
      Except.error PrepErr.vestingWindow ∧
    (prepareCreateInstructions exEnv exCreateData).1 ≠ [] := by
  exact ⟨rfl, by decide⟩

/-- C8 amended: the missing-invoker failure is raised before any network
read by all three preparers (the trace at the failure is empty); the
malformed-vesting failure, by contrast, is raised only after the mint
fetch, as the counterexample shows. -/
theorem C8_missing_invoker_fails_fast (env : Env)
    (cd : ICreateDistributorData) (ld : IClaimData) (wd : IClawbackData)
    (h : env.invokerKey = none) :
    prepareCreateInstructions env cd = ([], Except.error PrepErr.missingInvoker) ∧
    prepareClaimInstructions env ld = ([], Except.error PrepErr.missingInvoker) ∧
    prepareClawbackInstructions env wd = ([], Except.error PrepErr.missingInvoker) := by
  simp [prepareCreateInstructions, prepareClaimInstructions,
    prepareClawbackInstructions, h]

/-- Witness for the amended C8 at a concrete invoker-less environment. -/
theorem C8_missing_invoker_fails_fast_witness :
    prepareCreateInstructions { exEnv with invokerKey := none } exCreateData =
      ([], Except.error PrepErr.missingInvoker) ∧
    prepareClaimInstructions { exEnv with invokerKey := none } exClaimData =
      ([], Except.error PrepErr.missingInvoker) ∧
    prepareClawbackInstructions { exEnv with invokerKey := none } ⟨⟨51⟩⟩ =
      ([], Except.error PrepErr.missingInvoker) :=
  C8_missing_invoker_fails_fast _ exCreateData exClaimData ⟨⟨51⟩⟩ rfl

/-- C9: the composition and the address derivations are pure: equal inputs
(the injected collaborator results, the claim request, the clock value and
the key arguments) always yield equal outputs. -/
theorem C9_determinism (e₁ e₂ : Env) (d₁ d₂ : IClaimData)
    (p₁ p₂ m₁ m₂ c₁ c₂ : Pubkey) (v₁ v₂ : Nat)
    (he : e₁ = e₂) (hd : d₁ = d₂) (hp : p₁ = p₂) (hm : m₁ = m₂)
    (hc : c₁ = c₂) (hv : v₁ = v₂) :
    prepareClaimInstructions e₁ d₁ = prepareClaimInstructions e₂ d₂ ∧
    getDistributorPda p₁ m₁ v₁ = getDistributorPda p₂ m₂ v₂ ∧
    getClaimantStatusPda p₁ m₁ c₁ = getClaimantStatusPda p₂ m₂ c₂ ∧
    getEventAuthorityPda p₁ = getEventAuthorityPda p₂ ∧
    ata m₁ c₁ p₁ = ata m₂ c₂ p₂ := by
  subst he hd hp hm hc hv
  exact ⟨rfl, rfl, rfl, rfl, rfl⟩

/-- Witness for C9 at a concrete input. -/
theorem C9_determinism_witness :
    prepareClaimInstructions exEnv exClaimData =
      prepareClaimInstructions exEnv exClaimData ∧
    getDistributorPda ⟨41⟩ ⟨21⟩ 1 = getDistributorPda ⟨41⟩ ⟨21⟩ 1 ∧
    getClaimantStatusPda ⟨41⟩ ⟨21⟩ ⟨11⟩ = getClaimantStatusPda ⟨41⟩ ⟨21⟩ ⟨11⟩ ∧
    getEventAuthorityPda ⟨41⟩ = getEventAuthorityPda ⟨41⟩ ∧
    ata ⟨21⟩ ⟨11⟩ ⟨41⟩ = ata ⟨21⟩ ⟨11⟩ ⟨41⟩ :=
  C9_determinism exEnv exEnv exClaimData exClaimData ⟨41⟩ ⟨41⟩ ⟨21⟩ ⟨21⟩
    ⟨11⟩ ⟨11⟩ 1 1 rfl rfl rfl rfl rfl rfl

/-- C10: with an invoker available, an absent distributor account makes
both the claim and the clawback preparers fail with the account-info
error, while an absent ClaimStatus account is tolerated: the claim
preparer still returns an instruction list. -/
theorem C10_distributor_not_found_errors (env : Env)
    (cd : IClaimData) (wd : IClawbackData) (k : Pubkey)
    (hk : env.invokerKey = some k) :
    (env.fetchDistributor = none →
      (prepareClaimInstructions env cd).2 = Except.error PrepErr.accountInfo ∧
      (prepareClawbackInstructions env wd).2 = Except.error PrepErr.accountInfo) ∧
    (∀ d, env.fetchDistributor = some d → env.fetchClaimStatus = none →
      ∃ l, (prepareClaimInstructions env cd).2 = Except.ok l) := by
  constructor
  · intro h
    simp [prepareClaimInstructions, prepareClawbackInstructions, hk, h]
  · intro d h hc
    simp only [prepareClaimInstructions, hk, h, hc]
    exact ⟨_, rfl⟩

/-- Witness for C10 at a concrete environment without a distributor. -/
theorem C10_distributor_not_found_errors_witness :
    (({ exEnv with fetchDistributor := none } : Env).fetchDistributor = none →
      (prepareClaimInstructions { exEnv with fetchDistributor := none } exClaimData).2 =
        Except.error PrepErr.accountInfo ∧
      (prepareClawbackInstructions { exEnv with fetchDistributor := none } ⟨⟨51⟩⟩).2 =
        Except.error PrepErr.accountInfo) ∧
    (∀ d, ({ exEnv with fetchDistributor := none } : Env).fetchDistributor = some d →
      ({ exEnv with fetchDistributor := none } : Env).fetchClaimStatus = none →
      ∃ l, (prepareClaimInstructions { exEnv with fetchDistributor := none }
        exClaimData).2 = Except.ok l) :=
  C10_distributor_not_found_errors _ exClaimData ⟨⟨51⟩⟩ ⟨11⟩ rfl
